import Mathlib

/-!
Verification of the menubar control-plane core of `oh-my-claude`
(`apps/menubar/src-tauri/src`): session registry reading, per-session
status aggregation, menu fingerprinting and rebuild, and menu-click
action dispatch.

Rust strings are modelled as Lean `String` (a wrapper around `List Char`);
byte-level operations of Rust `str` (UTF-8 slicing, `len()`) are modelled
explicitly via per-character UTF-8 sizes.  The `u64` menu counter is a
`Nat` reduced mod `2 ^ 64` at each `fetch_add`, matching `AtomicU64`
wrap-around semantics.  External effects (file reads, JSON parsing, HTTP
calls, pid probes, the native tray backend) are oracle parameters.
-/

namespace OhMyClaude

/-! ### Rust string primitives (over `List Char`) -/

/-- Decimal rendering of a natural number, as produced by Rust's
`Display` for unsigned integers (`format!("{}", n)`). -/
def natDecimal (n : Nat) : List Char :=
  if n = 0 then ['0'] else ((Nat.digits 10 n).map Nat.digitChar).reverse

/-- Split on a separator character, Rust `str::split(sep)` semantics:
`n` separators yield `n + 1` (possibly empty) pieces. -/
def splitChar (sep : Char) : List Char → List (List Char)
  | [] => [[]]
  | c :: rest =>
    if c = sep then [] :: splitChar sep rest
    else
      match splitChar sep rest with
      | [] => [[c]]
      | p :: ps => (c :: p) :: ps

/-- `src/tray.rs` `strip_counter_suffix`, core on characters: find the last
`'_'` (Rust `rfind`); if everything after it is ASCII digits (vacuously
true for an empty tail), drop from the `'_'` on; otherwise unchanged. -/
def stripCS : List Char → List Char
  | [] => []
  | c :: rest =>
    if ('_' : Char) ∈ rest then c :: stripCS rest
    else if c = '_' && rest.all Char.isDigit then []
    else c :: rest

/-- `src/tray.rs` `strip_counter_suffix (id: &str) -> String`. -/
def strip_counter_suffix (id : String) : String :=
  ⟨stripCS id.data⟩

/-- The digit part examined by Rust `str::parse::<u16>`: an optional
leading `'+'` is skipped. -/
def u16_digits (p : List Char) : List Char :=
  match p with
  | '+' :: r => r
  | _ => p

/-- Rust `parts[1].parse::<u16>().unwrap_or(0)` (`src/tray.rs`): an
optional `'+'`, then one or more ASCII digits whose value fits in `u16`;
every failure (empty, non-digit, overflow) is defaulted to `0`. -/
def parse_u16 (p : List Char) : Nat :=
  let q := u16_digits p
  if q.isEmpty then 0
  else if q.all Char.isDigit then
    let v := q.foldl (fun a c => a * 10 + (c.toNat - 48)) 0
    if v < 65536 then v else 0
  else 0

/-- UTF-8 encoded length of one char, Rust `char::len_utf8`. -/
def utf8SizeC (c : Char) : Nat :=
  if c.toNat < 0x80 then 1
  else if c.toNat < 0x800 then 2
  else if c.toNat < 0x10000 then 3
  else 4

/-- UTF-8 byte length of a string, Rust `str::len`. -/
def byteLen (cs : List Char) : Nat :=
  (cs.map utf8SizeC).sum

/-- Whether byte index `n` falls on a character boundary (Rust
`str::is_char_boundary`); slicing at a non-boundary index panics. -/
def isCharBoundary : List Char → Nat → Bool
  | _, 0 => true
  | [], _ + 1 => false
  | c :: cs, n + 1 => utf8SizeC c ≤ n + 1 && isCharBoundary cs (n + 1 - utf8SizeC c)

/-- The characters covering the first `n` bytes (defined when `n` is a
boundary). -/
def takeBytes : List Char → Nat → List Char
  | _, 0 => []
  | [], _ + 1 => []
  | c :: cs, n + 1 => c :: takeBytes cs (n + 1 - utf8SizeC c)

/-- Rust byte-range slice `&s[..n]`: `some` prefix when `n` is a char
boundary, `none` models the panic. -/
def rustSlicePrefix (s : String) (n : Nat) : Option String :=
  if isCharBoundary s.data n then some ⟨takeBytes s.data n⟩ else none

/-- `&session.session_id[..session.session_id.len().min(8)]` from
`refresh_tray` (`src/tray.rs`): the first `min(len, 8)` bytes; `none`
models the slice panic when byte 8 is not a character boundary. -/
def session_id_trunc (sid : String) : Option String :=
  rustSlicePrefix sid (Nat.min (byteLen sid.data) 8)

/-- `cwd.rsplit('/').next()` from `list_sessions_inner`
(`src/commands.rs`): the segment after the last `'/'` (the whole string
when there is no `'/'`). -/
def last_path_segment (p : String) : String :=
  ⟨(p.data.reverse.takeWhile (fun c => c ≠ '/')).reverse⟩

/-! ### Data model (`src/types.rs`) -/

/-- `ProxySessionEntry` (`src/types.rs`). -/
structure ProxySessionEntry where
  session_id : String
  port : Nat
  control_port : Nat
  pid : Nat
  started_at : Nat
  cwd : Option String
deriving DecidableEq

/-- `SessionInfo` (`src/types.rs`). -/
structure SessionInfo where
  session_id : String
  port : Nat
  control_port : Nat
  pid : Nat
  started_at : Nat
  cwd : Option String
  project_name : String
  switched : Bool
  provider : Option String
  model : Option String
  healthy : Bool
deriving DecidableEq

/-- `StatusResponse` (`src/types.rs`). -/
structure StatusResponse where
  switched : Bool
  provider : Option String
  model : Option String
  switched_at : Option Nat
  session_id : Option String
deriving DecidableEq

/-- `ModelInfo` (`src/types.rs`). -/
structure ModelInfo where
  id : String
  label : String
deriving DecidableEq

/-- `ProviderInfo` (`src/types.rs`). -/
structure ProviderInfo where
  name : String
  models : List ModelInfo
deriving DecidableEq

/-! ### Registry (`src/registry.rs`) -/

/-- `read_registry` (`src/registry.rs`), with the external effects as
parameters: `file_content` is the result of `fs::read_to_string`
(`none` = IO error / missing file), `parse` is `serde_json::from_str`
(`none` = parse error), `alive` is the OS pid-liveness probe
`is_pid_alive`.  The function returns a plain list — no error is ever
raised to the caller. -/
def read_registry (file_content : Option String)
    (parse : String → Option (List ProxySessionEntry))
    (alive : Nat → Bool) : List ProxySessionEntry :=
  match file_content with
  | none => []
  | some content =>
    match parse content with
    | none => []
    | some entries => entries.filter (fun e => alive e.pid)

/-! ### Aggregation (`src/commands.rs`) -/

/-- Oracle for the per-session control API calls of `ProxyClient`:
`get_status` returns `none` on any transport error, `get_health` returns
whether the health call succeeded (`is_ok()`). -/
structure StatusEnv where
  get_status : Nat → String → Option StatusResponse
  get_health : Nat → Bool

/-- One loop iteration of `list_sessions_inner` (`src/commands.rs`):
build the `SessionInfo` for one registry entry. -/
def session_view (env : StatusEnv) (e : ProxySessionEntry) : SessionInfo :=
  let project_name :=
    match e.cwd with
    | some p => last_path_segment p
    | none => "unknown"
  match env.get_status e.control_port e.session_id with
  | some status =>
    { session_id := e.session_id, port := e.port, control_port := e.control_port,
      pid := e.pid, started_at := e.started_at, cwd := e.cwd,
      project_name := project_name,
      switched := status.switched, provider := status.provider,
      model := status.model, healthy := true }
  | none =>
    { session_id := e.session_id, port := e.port, control_port := e.control_port,
      pid := e.pid, started_at := e.started_at, cwd := e.cwd,
      project_name := project_name,
      switched := false, provider := none, model := none,
      healthy := env.get_health e.control_port }

/-- `list_sessions_inner` (`src/commands.rs`) over the already
liveness-filtered registry entries. -/
def list_sessions_inner (env : StatusEnv) (entries : List ProxySessionEntry) :
    List SessionInfo :=
  entries.map (session_view env)

/-- `get_providers_inner` (`src/commands.rs`): the hardcoded catalog. -/
def get_providers_inner : List ProviderInfo :=
  [ { name := "deepseek",
      models := [ { id := "deepseek-reasoner", label := "DeepSeek Reasoner" },
                  { id := "deepseek-chat", label := "DeepSeek Chat" } ] },
    { name := "zhipu",
      models := [ { id := "GLM-5", label := "ZhiPu GLM-5" },
                  { id := "glm-4v-flash", label := "ZhiPu GLM-4V Flash" } ] },
    { name := "minimax",
      models := [ { id := "MiniMax-M2.5", label := "MiniMax M2.5" } ] },
    { name := "kimi",
      models := [ { id := "K2.5", label := "Kimi K2.5" } ] },
    { name := "openai",
      models := [ { id := "gpt-5.3-codex", label := "GPT-5.3 Codex" } ] } ]

/-! ### Tray (`src/tray.rs`) -/

/-- `uid` (`src/tray.rs`): append `"_"` and the current counter value,
and advance the counter with `AtomicU64::fetch_add(1)` wrap-around
semantics.  Takes and returns the counter explicitly (the source holds
it in the `MENU_COUNTER` static). -/
def uid (base : String) (c : Nat) : String × Nat :=
  (base ++ "_" ++ (⟨natDecimal c⟩ : String), (c + 1) % 2 ^ 64)

/-- The ids produced by a sequence of `uid` calls with the given base
strings, starting from counter value `c`. -/
def issue : List String → Nat → List String
  | [], _ => []
  | b :: bs, c => (uid b c).1 :: issue bs (uid b c).2

/-- Rust `Display` for `bool`. -/
def bool_str (b : Bool) : String :=
  if b then "true" else "false"

/-- One entry of `compute_fingerprint` (`src/tray.rs`):
`"{}:{}:{}:{}:{}|"` over session id, healthy, switched, provider, model
(optional fields via `as_deref().unwrap_or("")`). -/
def render_entry (s : SessionInfo) : String :=
  s.session_id ++ ":" ++ bool_str s.healthy ++ ":" ++ bool_str s.switched ++ ":" ++
    (s.provider.getD "") ++ ":" ++ (s.model.getD "") ++ "|"

/-- `compute_fingerprint` (`src/tray.rs`). -/
def compute_fingerprint (sessions : List SessionInfo) : String :=
  sessions.foldl (fun fp s => fp ++ render_entry s) ""

/-- Externally visible effect of one menu click, as decided by
`handle_menu_event` / `handle_action` (`src/tray.rs`). -/
inductive TrayAction where
  | exit : TrayAction
  | switchModel : Nat → String → String → String → TrayAction
  | revertModel : Nat → String → TrayAction
  | nop : TrayAction
deriving DecidableEq

/-- `handle_action` (`src/tray.rs`): strip the counter suffix, split on
`':'`, then match `parts[0]` (the head — `split` always yields at least
one piece) under its arity guard (`"switch"` with `parts.len() >= 5`,
`"revert"` with `parts.len() >= 3`), reading `parts[1..]` (in bounds by
the guard, modelled with `getD`); the control port is
`parse::<u16>().unwrap_or(0)`; any other tag or arity is a no-op. -/
def handle_action (id : String) : TrayAction :=
  if (splitChar ':' (strip_counter_suffix id).data).head? = some "switch".data
      ∧ 5 ≤ (splitChar ':' (strip_counter_suffix id).data).length then
    TrayAction.switchModel
      (parse_u16 ((splitChar ':' (strip_counter_suffix id).data).getD 1 []))
      ⟨(splitChar ':' (strip_counter_suffix id).data).getD 2 []⟩
      ⟨(splitChar ':' (strip_counter_suffix id).data).getD 3 []⟩
      ⟨(splitChar ':' (strip_counter_suffix id).data).getD 4 []⟩
  else if (splitChar ':' (strip_counter_suffix id).data).head? = some "revert".data
      ∧ 3 ≤ (splitChar ':' (strip_counter_suffix id).data).length then
    TrayAction.revertModel
      (parse_u16 ((splitChar ':' (strip_counter_suffix id).data).getD 1 []))
      ⟨(splitChar ':' (strip_counter_suffix id).data).getD 2 []⟩
  else TrayAction.nop

/-- `handle_menu_event` (`src/tray.rs`): `quit` is recognised by the raw
prefix `"quit_"` (before any suffix stripping); only ids starting with
`"switch:"` or `"revert:"` are forwarded to `handle_action`. -/
def handle_menu_event (id : String) : TrayAction :=
  if "quit_".data.isPrefixOf id.data then TrayAction.exit
  else if "switch:".data.isPrefixOf id.data || "revert:".data.isPrefixOf id.data then
    handle_action id
  else TrayAction.nop

/-- A leaf menu item (id, label, enabled), as created by
`MenuItem::with_id`. -/
structure MenuItemNode where
  id : String
  label : String
  enabled : Bool
deriving DecidableEq

/-- A top-level menu entry: a plain item or a per-session submenu. -/
inductive MenuNode where
  | item : MenuItemNode → MenuNode
  | submenu : String → String → List MenuItemNode → MenuNode
deriving DecidableEq

/-- The `current_model` label of `refresh_tray` (`src/tray.rs`):
`"{provider}/{model}"` with `unwrap_or("?")` when switched, otherwise
`"Claude (native)"`. -/
def current_model_label (s : SessionInfo) : String :=
  if s.switched then (s.provider.getD "?") ++ "/" ++ (s.model.getD "?")
  else "Claude (native)"

/-- The switch menu item for one (provider, model) pair in
`refresh_tray`: id `uid("switch:<controlPort>:<sessionId>:<provider>:<model>")`,
label `"<provider> / <model label>"`. -/
def model_item (c : Nat) (s : SessionInfo) (pname : String) (m : ModelInfo) :
    MenuItemNode × Nat :=
  let action := "switch:" ++ (⟨natDecimal s.control_port⟩ : String) ++ ":" ++
    s.session_id ++ ":" ++ pname ++ ":" ++ m.id
  let r := uid action c
  ({ id := r.1, label := pname ++ " / " ++ m.label, enabled := true }, r.2)

/-- The inner model loop of `refresh_tray`, threading the counter. -/
def model_items (c : Nat) (s : SessionInfo) (pname : String) :
    List ModelInfo → List MenuItemNode × Nat
  | [] => ([], c)
  | m :: ms =>
    let r := model_item c s pname m
    let rest := model_items r.2 s pname ms
    (r.1 :: rest.1, rest.2)

/-- The provider loop of `refresh_tray`, threading the counter. -/
def provider_items (c : Nat) (s : SessionInfo) :
    List ProviderInfo → List MenuItemNode × Nat
  | [] => ([], c)
  | p :: ps =>
    let r := model_items c s p.name p.models
    let rest := provider_items r.2 s ps
    (r.1 ++ rest.1, rest.2)

/-- One per-session submenu of `refresh_tray`: label from the truncated
session id (`none` models the byte-slice panic), a `uid`-fresh submenu
id, the catalog switch items, and — only when switched — a revert
item. -/
def session_node (c : Nat) (s : SessionInfo) : Option (MenuNode × Nat) :=
  match session_id_trunc s.session_id with
  | none => none
  | some pfx =>
    let label := pfx ++ " - " ++ current_model_label s
    let rs := uid ("session_" ++ s.session_id) c
    let ritems := provider_items rs.2 s get_providers_inner
    let rfinal :=
      if s.switched then
        let action := "revert:" ++ (⟨natDecimal s.control_port⟩ : String) ++ ":" ++
          s.session_id
        let rr := uid action ritems.2
        (ritems.1 ++ [{ id := rr.1, label := "Revert to Claude", enabled := true }], rr.2)
      else ritems
    some (MenuNode.submenu rs.1 label rfinal.1, rfinal.2)

/-- The session loop of `refresh_tray`. -/
def session_nodes (c : Nat) : List SessionInfo → Option (List MenuNode × Nat)
  | [] => some ([], c)
  | s :: ss =>
    match session_node c s with
    | none => none
    | some (n, c') =>
      match session_nodes c' ss with
      | none => none
      | some (ns, c'') => some (n :: ns, c'')

/-- The menu tree built by `refresh_tray` (`src/tray.rs`): a disabled
header, then either a disabled "No sessions running" placeholder or one
submenu per session, then an enabled "Quit" item; every id comes from
`uid`.  `none` models a session-label slice panic. -/
def build_menu (c : Nat) (sessions : List SessionInfo) :
    Option (List MenuNode × Nat) :=
  let rh := uid "header" c
  let header := MenuNode.item { id := rh.1, label := "oh-my-claude", enabled := false }
  if sessions.isEmpty then
    let rn := uid "no_sessions" rh.2
    let rq := uid "quit" rn.2
    some ([header,
           MenuNode.item { id := rn.1, label := "No sessions running", enabled := false },
           MenuNode.item { id := rq.1, label := "Quit", enabled := true }], rq.2)
  else
    match session_nodes rh.2 sessions with
    | none => none
    | some (ns, c2) =>
      let rq := uid "quit" c2
      some (header :: ns ++ [MenuNode.item { id := rq.1, label := "Quit", enabled := true }], rq.2)

/-- Failure oracle for the fallible tray-backend operations of
`refresh_tray`: whether `app.tray_by_id("main")` finds the tray and
whether `tray.set_menu` succeeds. -/
structure RefreshEnv where
  tray_found : Bool
  set_menu_ok : Bool
deriving DecidableEq

/-- The process-wide mutable tray state: the `LAST_MENU_FINGERPRINT`
static and the `MENU_COUNTER` static. -/
structure TrayState where
  last_fingerprint : String
  counter : Nat
deriving DecidableEq

/-- An observable mutation of the visible menu (`tray.set_menu`). -/
inductive MenuMutation where
  | set_menu : List MenuNode → MenuMutation
deriving DecidableEq

/-- `refresh_tray` (`src/tray.rs`) on an already aggregated session
list: skip (no mutation) when the fingerprint is unchanged, otherwise
store the new fingerprint, then look up the tray, build the menu, and
`set_menu`.  Returns the new state, the performed menu mutations, and
the `Result`; the outer `none` models a slice panic inside the build. -/
def refresh_tray (env : RefreshEnv) (st : TrayState) (sessions : List SessionInfo) :
    Option (TrayState × List MenuMutation × Except String Unit) :=
  let fp := compute_fingerprint sessions
  if st.last_fingerprint = fp then some (st, [], Except.ok ())
  else
    let st1 : TrayState := { st with last_fingerprint := fp }
    if !env.tray_found then some (st1, [], Except.error "Tray not found")
    else
      match build_menu st1.counter sessions with
      | none => none
      | some (menu, c') =>
        let st2 : TrayState := { st1 with counter := c' }
        if env.set_menu_ok then some (st2, [MenuMutation.set_menu menu], Except.ok ())
        else some (st2, [], Except.error "set_menu failed")

/-! ### Spec-side definition for the suffix-stripping claim -/

/-- Spec reading of "has a trailing `_<digits>` segment": ends in `'_'`
followed by one or more ASCII digits.  (Used only to state the
suffix-stripping claim; the code's behaviour is `strip_counter_suffix`.) -/
def has_trailing_digit_suffix (s : String) : Bool :=
  let r := s.data.reverse
  let ds := r.takeWhile Char.isDigit
  !ds.isEmpty && (r.drop ds.length).head? = some '_'

/-! ### Concrete inputs for counterexamples and witnesses -/

/-- A concrete healthy, unswitched session view. -/
def sampleSession : SessionInfo :=
  { session_id := "s1", port := 8000, control_port := 9000, pid := 42,
    started_at := 0, cwd := some "/home/u/myproj", project_name := "myproj",
    switched := false, provider := none, model := none, healthy := true }

/-- `sampleSession` with `provider` changed from `none` to `some ""`. -/
def sampleSessionEmptyProvider : SessionInfo :=
  { sampleSession with provider := some "" }

/-! ### Helper lemmas: suffix stripping -/

theorem stripCS_strip {ds : List Char} (hd : ('_' : Char) ∉ ds)
    (hdig : ds.all Char.isDigit = true) :
    ∀ pre, stripCS (pre ++ '_' :: ds) = pre := by
  intro pre
  induction pre with
  | nil => simp [stripCS, hd, hdig]
  | cons p ps ih =>
    have hmem : ('_' : Char) ∈ ps ++ '_' :: ds := by simp
    simp [stripCS, hmem, ih]

theorem stripCS_unchanged {cs : List Char}
    (h : ∀ pre ds, cs = pre ++ '_' :: ds → ('_' : Char) ∉ ds →
      ¬ ds.all Char.isDigit = true) :
    stripCS cs = cs := by
  induction cs with
  | nil => rfl
  | cons c rest ih =>
    by_cases hm : ('_' : Char) ∈ rest
    · have hr : stripCS rest = rest :=
        ih (fun pre ds hdec hnd => h (c :: pre) ds (by rw [hdec]; rfl) hnd)
      simp [stripCS, hm, hr]
    · by_cases hc : c = '_'
      · subst hc
        have hnd := h [] rest rfl hm
        have hall : rest.all Char.isDigit = false := by
          cases hall : rest.all Char.isDigit
          · rfl
          · exact absurd hall hnd
        simp [stripCS, hm, hall]
      · simp [stripCS, hm, hc]

/-! ### Helper lemmas: ASCII truncation -/

theorem utf8SizeC_ascii {c : Char} (h : c.toNat < 128) : utf8SizeC c = 1 := by
  simp [utf8SizeC, h]

theorem byteLen_ascii {cs : List Char} (h : ∀ c ∈ cs, c.toNat < 128) :
    byteLen cs = cs.length := by
  induction cs with
  | nil => rfl
  | cons c rest ih =>
    have hc := utf8SizeC_ascii (h c (List.mem_cons_self c rest))
    have hr := ih (fun x hx => h x (List.mem_cons_of_mem c hx))
    simp [byteLen] at hr ⊢
    omega

theorem isCharBoundary_ascii {cs : List Char} (h : ∀ c ∈ cs, c.toNat < 128) :
    ∀ n, n ≤ cs.length → isCharBoundary cs n = true := by
  induction cs with
  | nil =>
    intro n hn
    have hn0 : n = 0 := by simpa using hn
    subst hn0
    rfl
  | cons c rest ih =>
    intro n hn
    cases n with
    | zero => rfl
    | succ m =>
      have hc := utf8SizeC_ascii (h c (List.mem_cons_self c rest))
      have hm : m ≤ rest.length := by simpa using hn
      have hr := ih (fun x hx => h x (List.mem_cons_of_mem c hx)) m hm
      simp [isCharBoundary, hc, hr]

/-! ### C5: aggregation failure isolation -/

/-- C5: aggregation returns exactly one `SessionInfo` per registry
entry, in registry order, regardless of how many status calls fail; an
entry whose status call fails but whose health call succeeds yields
`healthy = true, switched = false, provider = none, model = none`, and
an entry whose status call succeeds is populated from its status
response with `healthy = true`. -/
theorem aggregation_failure_isolation (env : StatusEnv)
    (entries : List ProxySessionEntry) :
    (list_sessions_inner env entries).length = entries.length
    ∧ ∀ i (hi : i < entries.length) (hv : i < (list_sessions_inner env entries).length),
        ((list_sessions_inner env entries).get ⟨i, hv⟩).session_id
            = (entries.get ⟨i, hi⟩).session_id
        ∧ (env.get_status (entries.get ⟨i, hi⟩).control_port
              (entries.get ⟨i, hi⟩).session_id = none →
            env.get_health (entries.get ⟨i, hi⟩).control_port = true →
            ((list_sessions_inner env entries).get ⟨i, hv⟩).healthy = true
            ∧ ((list_sessions_inner env entries).get ⟨i, hv⟩).switched = false
            ∧ ((list_sessions_inner env entries).get ⟨i, hv⟩).provider = none
            ∧ ((list_sessions_inner env entries).get ⟨i, hv⟩).model = none)
        ∧ ∀ status, env.get_status (entries.get ⟨i, hi⟩).control_port
              (entries.get ⟨i, hi⟩).session_id = some status →
            ((list_sessions_inner env entries).get ⟨i, hv⟩).healthy = true
            ∧ ((list_sessions_inner env entries).get ⟨i, hv⟩).switched = status.switched
            ∧ ((list_sessions_inner env entries).get ⟨i, hv⟩).provider = status.provider
            ∧ ((list_sessions_inner env entries).get ⟨i, hv⟩).model = status.model := by
  constructor
  · simp [list_sessions_inner]
  · intro i hi hv
    have hget : (list_sessions_inner env entries).get ⟨i, hv⟩
        = session_view env (entries.get ⟨i, hi⟩) := by
      simp [list_sessions_inner]
    rw [hget]
    set e := entries.get ⟨i, hi⟩ with he
    refine ⟨?_, ?_, ?_⟩
    · cases hs : env.get_status e.control_port e.session_id <;> simp [session_view, hs]
    · intro hs hh
      simp [session_view, hs, hh]
    · intro status hs
      simp [session_view, hs]

/-- Witness for `aggregation_failure_isolation` at the spec's
three-entry example: entry 2's status call fails but its health call
succeeds. -/
theorem aggregation_failure_isolation_witness :
    (list_sessions_inner
        ⟨fun p _ => if p = 2 then none else some ⟨true, some "deepseek", some "deepseek-chat", none, none⟩,
         fun _ => true⟩
        [⟨"a", 1, 1, 1, 0, none⟩, ⟨"b", 2, 2, 2, 0, none⟩, ⟨"c", 3, 3, 3, 0, none⟩]).length = 3
    ∧ ((list_sessions_inner
        ⟨fun p _ => if p = 2 then none else some ⟨true, some "deepseek", some "deepseek-chat", none, none⟩,
         fun _ => true⟩
        [⟨"a", 1, 1, 1, 0, none⟩, ⟨"b", 2, 2, 2, 0, none⟩, ⟨"c", 3, 3, 3, 0, none⟩]).get
          ⟨1, by decide⟩).healthy = true
    ∧ ((list_sessions_inner
        ⟨fun p _ => if p = 2 then none else some ⟨true, some "deepseek", some "deepseek-chat", none, none⟩,
         fun _ => true⟩
        [⟨"a", 1, 1, 1, 0, none⟩, ⟨"b", 2, 2, 2, 0, none⟩, ⟨"c", 3, 3, 3, 0, none⟩]).get
          ⟨1, by decide⟩).provider = none := by
  have h := aggregation_failure_isolation
      ⟨fun p _ => if p = 2 then none else some ⟨true, some "deepseek", some "deepseek-chat", none, none⟩,
       fun _ => true⟩
      [⟨"a", 1, 1, 1, 0, none⟩, ⟨"b", 2, 2, 2, 0, none⟩, ⟨"c", 3, 3, 3, 0, none⟩]
  have h2 := (h.2 1 (by decide) (by decide)).2.1 (by decide) (by decide)
  exact ⟨by decide, h2.1, h2.2.2.1⟩

/-! ### C6: unhealthy views carry no status claims -/

/-- C6: every aggregated view with `healthy = false` has
`switched = false` and absent `provider`/`model`. -/
theorem unhealthy_carries_no_status (env : StatusEnv)
    (entries : List ProxySessionEntry) (v : SessionInfo)
    (hv : v ∈ list_sessions_inner env entries) (h : v.healthy = false) :
    v.switched = false ∧ v.provider = none ∧ v.model = none := by
  obtain ⟨e, _, rfl⟩ := List.mem_map.mp hv
  cases hs : env.get_status e.control_port e.session_id with
  | some status =>
    exfalso
    simp [session_view, hs] at h
  | none =>
    simp [session_view, hs]

/-- Witness for `unhealthy_carries_no_status`: a single entry whose
status and health calls both fail. -/
theorem unhealthy_carries_no_status_witness :
    (session_view ⟨fun _ _ => none, fun _ => false⟩ ⟨"a", 1, 1, 1, 0, none⟩).switched = false
    ∧ (session_view ⟨fun _ _ => none, fun _ => false⟩ ⟨"a", 1, 1, 1, 0, none⟩).provider = none
    ∧ (session_view ⟨fun _ _ => none, fun _ => false⟩ ⟨"a", 1, 1, 1, 0, none⟩).model = none :=
  unhealthy_carries_no_status ⟨fun _ _ => none, fun _ => false⟩ [⟨"a", 1, 1, 1, 0, none⟩]
    (session_view ⟨fun _ _ => none, fun _ => false⟩ ⟨"a", 1, 1, 1, 0, none⟩)
    (by simp [list_sessions_inner]) (by decide)

/-! ### C7: registry read is fail-soft and liveness-filtered -/

/-- C7: `read_registry` never fails: a missing file or unparsable
content yields `[]`; otherwise it returns exactly the parsed entries
whose pid is alive, in original order (a sublist), dropping exactly the
entries whose liveness probe fails. -/
theorem read_registry_fail_soft_liveness
    (parse : String → Option (List ProxySessionEntry)) (alive : Nat → Bool) :
    read_registry none parse alive = []
    ∧ (∀ c, parse c = none → read_registry (some c) parse alive = [])
    ∧ (∀ c es, parse c = some es →
        List.Sublist (read_registry (some c) parse alive) es
        ∧ (∀ e ∈ es, alive e.pid = true → e ∈ read_registry (some c) parse alive)
        ∧ (∀ e ∈ read_registry (some c) parse alive, e ∈ es ∧ alive e.pid = true)) := by
  refine ⟨rfl, ?_, ?_⟩
  · intro c hc
    simp [read_registry, hc]
  · intro c es hes
    simp only [read_registry, hes]
    refine ⟨List.filter_sublist es, ?_, ?_⟩
    · intro e he ha
      exact List.mem_filter.mpr ⟨he, ha⟩
    · intro e he
      exact List.mem_filter.mp he

/-- Witness for `read_registry_fail_soft_liveness`: a registry with one
live and one dead pid keeps exactly the live entry. -/
theorem read_registry_fail_soft_liveness_witness :
    (⟨"a", 1, 1, 3, 0, none⟩ : ProxySessionEntry)
      ∈ read_registry (some "[]")
          (fun _ => some [⟨"a", 1, 1, 3, 0, none⟩, ⟨"b", 1, 1, 5, 0, none⟩])
          (fun pid => pid = 3)
    ∧ ∀ e ∈ read_registry (some "[]")
          (fun _ => some [⟨"a", 1, 1, 3, 0, none⟩, ⟨"b", 1, 1, 5, 0, none⟩])
          (fun pid => pid = 3),
        e ∈ [(⟨"a", 1, 1, 3, 0, none⟩ : ProxySessionEntry), ⟨"b", 1, 1, 5, 0, none⟩]
        ∧ (fun pid => decide (pid = 3)) e.pid = true := by
  have h := (read_registry_fail_soft_liveness
      (fun _ => some [⟨"a", 1, 1, 3, 0, none⟩, ⟨"b", 1, 1, 5, 0, none⟩])
      (fun pid => pid = 3)).2.2 "[]"
      [⟨"a", 1, 1, 3, 0, none⟩, ⟨"b", 1, 1, 5, 0, none⟩] rfl
  exact ⟨h.2.1 _ (by decide) (by decide), h.2.2⟩

/-! ### C8: strip_counter_suffix -/

/-- C8 counterexample: `"x_"` has no trailing `_<digits>` segment (no
digit follows the underscore), so the claim says it is returned
unchanged, yet the code strips the bare underscore (the all-digits
check is vacuously true for an empty tail). -/
theorem strip_empty_digits_counterexample :
    has_trailing_digit_suffix "x_" = false
    ∧ strip_counter_suffix "x_" ≠ "x_" := by
  decide

/-- C8 (amended): stripping removes a trailing `'_'`-plus-digits
segment where the digit run may also be empty; an identifier whose
part after the last `'_'` is not all digits (or which has no `'_'`) is
unchanged; the three example identifiers map as the claim states. -/
theorem strip_counter_suffix_characterization :
    (∀ (id : String) (pre ds : List Char), id.data = pre ++ '_' :: ds →
        ('_' : Char) ∉ ds → ds.all Char.isDigit = true →
        strip_counter_suffix id = ⟨pre⟩)
    ∧ (∀ id : String, (∀ pre ds, id.data = pre ++ '_' :: ds → ('_' : Char) ∉ ds →
        ¬ ds.all Char.isDigit = true) → strip_counter_suffix id = id)
    ∧ strip_counter_suffix "switch:9000:abc:deepseek:deepseek-chat_42"
        = "switch:9000:abc:deepseek:deepseek-chat"
    ∧ strip_counter_suffix "quit_7" = "quit"
    ∧ strip_counter_suffix "quit" = "quit" := by
  refine ⟨?_, ?_, by decide, by decide, by decide⟩
  · intro id pre ds hdec hnd hdig
    show (⟨stripCS id.data⟩ : String) = ⟨pre⟩
    rw [hdec, stripCS_strip hnd hdig]
  · intro id h
    show (⟨stripCS id.data⟩ : String) = id
    rw [stripCS_unchanged h]

/-- Witness for `strip_counter_suffix_characterization`: both general
clauses applied at concrete identifiers. -/
theorem strip_counter_suffix_characterization_witness :
    strip_counter_suffix "a_b_12" = "a_b"
    ∧ strip_counter_suffix "ab" = "ab" :=
  ⟨strip_counter_suffix_characterization.1 "a_b_12" "a_b".data ['1', '2']
      (by decide) (by decide) (by decide),
   strip_counter_suffix_characterization.2.1 "ab"
      (by
        intro pre ds h _
        exfalso
        have hm : ('_' : Char) ∈ pre ++ '_' :: ds :=
          List.mem_append_right pre (List.mem_cons_self _ _)
        rw [← h] at hm
        exact absurd hm (by decide))⟩

/-! ### C10: session-id truncation safety -/

/-- C10: the session-label truncation takes the first
`min(8, byte length)` bytes; it is total (no panic) for every ASCII
session id, and that guarantee does not extend to ids where a
multi-byte character spans byte 8: `"abcdefgé"` hits a non-boundary
slice (a panic, modelled as `none`). -/
theorem session_id_truncation_ascii_safe :
    (∀ sid : String, (∀ c ∈ sid.data, c.toNat < 128) →
        (session_id_trunc sid).isSome = true)
    ∧ session_id_trunc "abcdefgé" = none := by
  constructor
  · intro sid h
    have hb : isCharBoundary sid.data (Nat.min (byteLen sid.data) 8) = true := by
      apply isCharBoundary_ascii h
      calc Nat.min (byteLen sid.data) 8 ≤ byteLen sid.data := Nat.min_le_left _ _
        _ = sid.data.length := byteLen_ascii h
    simp [session_id_trunc, rustSlicePrefix, hb]
  · decide

/-- Witness for `session_id_truncation_ascii_safe` at an ASCII id. -/
theorem session_id_truncation_ascii_safe_witness :
    (session_id_trunc "abcdefghij").isSome = true :=
  session_id_truncation_ascii_safe.1 "abcdefghij" (by decide)

/-! ### Helper lemmas: refresh_tray -/

theorem refresh_tray_skip (env : RefreshEnv) (st : TrayState) (sessions : List SessionInfo)
    (h : st.last_fingerprint = compute_fingerprint sessions) :
    refresh_tray env st sessions = some (st, [], Except.ok ()) := by
  simp [refresh_tray, h]

theorem refresh_tray_commits (env : RefreshEnv) (st : TrayState) (sessions : List SessionInfo)
    (st1 : TrayState) (muts : List MenuMutation) (res : Except String Unit)
    (h : refresh_tray env st sessions = some (st1, muts, res)) :
    st1.last_fingerprint = compute_fingerprint sessions := by
  have key : ∀ (a : TrayState) (m2 : List MenuMutation) (r2 : Except String Unit),
      (some (a, m2, r2) : Option (TrayState × List MenuMutation × Except String Unit))
        = some (st1, muts, res) → st1 = a :=
    fun a m2 r2 hh => (congrArg Prod.fst (Option.some.inj hh)).symm
  simp only [refresh_tray] at h
  by_cases hfp : st.last_fingerprint = compute_fingerprint sessions
  · rw [if_pos hfp] at h
    rw [key st [] (Except.ok ()) h]
    exact hfp
  · rw [if_neg hfp] at h
    cases htf : env.tray_found with
    | false =>
      rw [htf] at h
      simp only [Bool.not_false, if_true] at h
      rw [key _ _ _ h]
    | true =>
      rw [htf] at h
      simp only [Bool.not_true, Bool.false_eq_true, if_false] at h
      cases hbm : build_menu st.counter sessions with
      | none =>
        rw [hbm] at h
        exact absurd h (by simp)
      | some mc =>
        rw [hbm] at h
        cases hsm : env.set_menu_ok with
        | true =>
          rw [hsm] at h
          simp only [if_true] at h
          rw [key _ _ _ h]
        | false =>
          rw [hsm] at h
          simp only [Bool.false_eq_true, if_false] at h
          rw [key _ _ _ h]

/-! ### C3: fingerprint caching and rebuild -/

/-- C3 counterexample: with a changed session list but a missing tray
(`tray_by_id` fails), the rebuild fails with an error and performs zero
menu mutations, yet the cached fingerprint HAS been updated to the new
value — contradicting "if the replacement fails the cached fingerprint
is left unchanged". -/
theorem refresh_failure_updates_fingerprint_counterexample :
    refresh_tray ⟨false, true⟩ ⟨"", 0⟩ [sampleSession]
      = some (⟨compute_fingerprint [sampleSession], 0⟩, [],
              Except.error "Tray not found")
    ∧ compute_fingerprint [sampleSession] ≠ "" :=
  ⟨rfl, by decide⟩

/-- C3 (amended): an unchanged fingerprint means no menu mutation at
all; every non-panicking call — skip, successful rebuild, or FAILED
rebuild alike — leaves the cached fingerprint equal to the fingerprint
of its input (the cache is updated before the replacement is attempted,
so a failed replacement still keeps the new value); hence a second call
with the same input performs zero mutations and succeeds. -/
theorem refresh_fingerprint_discipline :
    (∀ (env : RefreshEnv) (st : TrayState) (sessions : List SessionInfo),
        st.last_fingerprint = compute_fingerprint sessions →
        refresh_tray env st sessions = some (st, [], Except.ok ()))
    ∧ (∀ (env : RefreshEnv) (st : TrayState) (sessions : List SessionInfo)
        (st1 : TrayState) (muts : List MenuMutation) (res : Except String Unit),
        refresh_tray env st sessions = some (st1, muts, res) →
        st1.last_fingerprint = compute_fingerprint sessions)
    ∧ (∀ (env env2 : RefreshEnv) (st : TrayState) (sessions : List SessionInfo)
        (st1 : TrayState) (muts : List MenuMutation) (res : Except String Unit),
        refresh_tray env st sessions = some (st1, muts, res) →
        refresh_tray env2 st1 sessions = some (st1, [], Except.ok ())) :=
  ⟨fun env st sessions h => refresh_tray_skip env st sessions h,
   fun env st sessions st1 muts res h => refresh_tray_commits env st sessions st1 muts res h,
   fun env env2 st sessions st1 muts res h =>
     refresh_tray_skip env2 st1 sessions
       (refresh_tray_commits env st sessions st1 muts res h)⟩

/-- Witness for `refresh_fingerprint_discipline`: a skip on unchanged
data, and the zero-mutation second call right after a failed rebuild. -/
theorem refresh_fingerprint_discipline_witness :
    refresh_tray ⟨true, true⟩ ⟨"", 0⟩ [] = some (⟨"", 0⟩, [], Except.ok ())
    ∧ refresh_tray ⟨true, true⟩ ⟨compute_fingerprint [sampleSession], 0⟩ [sampleSession]
        = some (⟨compute_fingerprint [sampleSession], 0⟩, [], Except.ok ()) :=
  ⟨refresh_fingerprint_discipline.1 ⟨true, true⟩ ⟨"", 0⟩ [] rfl,
   refresh_fingerprint_discipline.2.2 ⟨false, true⟩ ⟨true, true⟩ ⟨"", 0⟩ [sampleSession]
     ⟨compute_fingerprint [sampleSession], 0⟩ [] (Except.error "Tray not found") rfl⟩

/-! ### Helper lemmas: dispatch -/

theorem prefixes_incomparable {p1 p2 l : List Char}
    (h1 : p1.isPrefixOf l = true) (h2 : p2.isPrefixOf l = true)
    (h12 : p1.isPrefixOf p2 = false) (h21 : p2.isPrefixOf p1 = false) : False := by
  have a1 := List.isPrefixOf_iff_prefix.mp h1
  have a2 := List.isPrefixOf_iff_prefix.mp h2
  rcases List.prefix_or_prefix_of_prefix a1 a2 with h | h
  · have hb := List.isPrefixOf_iff_prefix.mpr h
    rw [hb] at h12
    exact Bool.noConfusion h12
  · have hb := List.isPrefixOf_iff_prefix.mpr h
    rw [hb] at h21
    exact Bool.noConfusion h21

theorem quit_prefix_false_of_switch (id : String)
    (h : "switch:".data.isPrefixOf id.data = true) :
    "quit_".data.isPrefixOf id.data = false := by
  cases hb : "quit_".data.isPrefixOf id.data with
  | false => rfl
  | true => exact (prefixes_incomparable hb h (by decide) (by decide)).elim

theorem quit_prefix_false_of_revert (id : String)
    (h : "revert:".data.isPrefixOf id.data = true) :
    "quit_".data.isPrefixOf id.data = false := by
  cases hb : "quit_".data.isPrefixOf id.data with
  | false => rfl
  | true => exact (prefixes_incomparable hb h (by decide) (by decide)).elim

theorem handle_action_switch (id : String) (t p1 p2 p3 p4 : List Char)
    (rest : List (List Char))
    (hsplit : splitChar ':' (strip_counter_suffix id).data
      = t :: p1 :: p2 :: p3 :: p4 :: rest)
    (ht : t = "switch".data) :
    handle_action id = TrayAction.switchModel (parse_u16 p1) ⟨p2⟩ ⟨p3⟩ ⟨p4⟩ := by
  subst ht
  unfold handle_action
  rw [hsplit, if_pos ⟨rfl, by simp⟩]
  rfl

theorem handle_action_revert (id : String) (t p1 p2 : List Char)
    (rest : List (List Char))
    (hsplit : splitChar ':' (strip_counter_suffix id).data = t :: p1 :: p2 :: rest)
    (ht : t = "revert".data) :
    handle_action id = TrayAction.revertModel (parse_u16 p1) ⟨p2⟩ := by
  subst ht
  unfold handle_action
  rw [hsplit, if_neg (fun hc => absurd (Option.some.inj hc.1) (by decide)),
    if_pos ⟨rfl, by simp⟩]
  rfl

theorem handle_action_unknown_tag (id : String) (t : List Char)
    (ps : List (List Char))
    (hsplit : splitChar ':' (strip_counter_suffix id).data = t :: ps)
    (h1 : t ≠ "switch".data) (h2 : t ≠ "revert".data) :
    handle_action id = TrayAction.nop := by
  unfold handle_action
  rw [hsplit, if_neg (fun hc => absurd (Option.some.inj hc.1) h1),
    if_neg (fun hc => absurd (Option.some.inj hc.1) h2)]

theorem handle_action_switch_short (id : String) (t : List Char)
    (ps : List (List Char))
    (hsplit : splitChar ':' (strip_counter_suffix id).data = t :: ps)
    (ht : t = "switch".data) (hlen : ps.length < 4) :
    handle_action id = TrayAction.nop := by
  subst ht
  unfold handle_action
  rw [hsplit, if_neg (fun hc => by
      have := hc.2
      simp at this
      omega),
    if_neg (fun hc => absurd (Option.some.inj hc.1) (by decide))]

theorem handle_action_revert_short (id : String) (t : List Char)
    (ps : List (List Char))
    (hsplit : splitChar ':' (strip_counter_suffix id).data = t :: ps)
    (ht : t = "revert".data) (hlen : ps.length < 2) :
    handle_action id = TrayAction.nop := by
  subst ht
  unfold handle_action
  rw [hsplit, if_neg (fun hc => absurd (Option.some.inj hc.1) (by decide)),
    if_neg (fun hc => by
      have := hc.2
      simp at this
      omega)]

theorem parse_u16_malformed {p : List Char}
    (h : (u16_digits p).all Char.isDigit = false) :
    parse_u16 p = 0 := by
  unfold parse_u16
  cases he : (u16_digits p).isEmpty with
  | true => simp [he]
  | false => simp [he, h]

theorem handle_menu_event_quit (id : String)
    (h : "quit_".data.isPrefixOf id.data = true) :
    handle_menu_event id = TrayAction.exit := by
  simp [handle_menu_event, h]

theorem handle_menu_event_switch_routes (id : String)
    (h : "switch:".data.isPrefixOf id.data = true) :
    handle_menu_event id = handle_action id := by
  simp [handle_menu_event, quit_prefix_false_of_switch id h, h]

theorem handle_menu_event_revert_routes (id : String)
    (h : "revert:".data.isPrefixOf id.data = true) :
    handle_menu_event id = handle_action id := by
  simp [handle_menu_event, quit_prefix_false_of_revert id h, h]

theorem handle_menu_event_other (id : String)
    (h1 : "quit_".data.isPrefixOf id.data = false)
    (h2 : "switch:".data.isPrefixOf id.data = false)
    (h3 : "revert:".data.isPrefixOf id.data = false) :
    handle_menu_event id = TrayAction.nop := by
  simp [handle_menu_event, h1, h2, h3]

/-! ### C2: click dispatch routing -/

/-- C2 counterexample: the code recognises `quit` by the raw prefix
`"quit_"` BEFORE stripping, and guards `switch` with `parts.len() >= 5`
rather than exactly 5.  So: a bare `"quit"` identifier (stripped tag
`quit`, one field) is a no-op instead of terminating; a six-field
`switch` identifier is dispatched instead of being a no-op; and
`"quit_abc"` exits although its stripped tag is not `quit`. -/
theorem dispatch_bare_quit_counterexample :
    splitChar ':' (strip_counter_suffix "quit").data = ["quit".data]
    ∧ handle_menu_event "quit" = TrayAction.nop
    ∧ (splitChar ':' (strip_counter_suffix "switch:1:s:p:m:x_0").data).length = 6
    ∧ handle_menu_event "switch:1:s:p:m:x_0" = TrayAction.switchModel 1 "s" "p" "m"
    ∧ strip_counter_suffix "quit_abc" = "quit_abc"
    ∧ handle_menu_event "quit_abc" = TrayAction.exit := by
  decide

/-- C2 (amended): `quit` is recognised by the raw prefix `"quit_"`
(before suffix stripping); only raw prefixes `"switch:"` / `"revert:"`
are forwarded to the action handler, everything else is a no-op; after
stripping and splitting on `':'`, tag `switch` with AT LEAST 5 fields
invokes switchModel on fields 2-5 (the port parsed with default 0), and
tag `revert` with AT LEAST 3 fields invokes revertModel on fields
2-3. -/
theorem dispatch_routing_amended :
    (∀ id : String, "quit_".data.isPrefixOf id.data = true →
        handle_menu_event id = TrayAction.exit)
    ∧ (∀ id : String, "switch:".data.isPrefixOf id.data = true →
        handle_menu_event id = handle_action id)
    ∧ (∀ id : String, "revert:".data.isPrefixOf id.data = true →
        handle_menu_event id = handle_action id)
    ∧ (∀ id : String, "quit_".data.isPrefixOf id.data = false →
        "switch:".data.isPrefixOf id.data = false →
        "revert:".data.isPrefixOf id.data = false →
        handle_menu_event id = TrayAction.nop)
    ∧ (∀ (id : String) (t p1 p2 p3 p4 : List Char) (rest : List (List Char)),
        splitChar ':' (strip_counter_suffix id).data
          = t :: p1 :: p2 :: p3 :: p4 :: rest →
        t = "switch".data →
        handle_action id = TrayAction.switchModel (parse_u16 p1) ⟨p2⟩ ⟨p3⟩ ⟨p4⟩)
    ∧ (∀ (id : String) (t p1 p2 : List Char) (rest : List (List Char)),
        splitChar ':' (strip_counter_suffix id).data = t :: p1 :: p2 :: rest →
        t = "revert".data →
        handle_action id = TrayAction.revertModel (parse_u16 p1) ⟨p2⟩) :=
  ⟨handle_menu_event_quit, handle_menu_event_switch_routes,
   handle_menu_event_revert_routes, handle_menu_event_other,
   handle_action_switch, handle_action_revert⟩

/-- Witness for `dispatch_routing_amended` at the spec's example
identifiers. -/
theorem dispatch_routing_amended_witness :
    handle_menu_event "quit_7" = TrayAction.exit
    ∧ handle_action "switch:9000:abcdef1234567890:deepseek:deepseek-chat_3"
        = TrayAction.switchModel 9000 "abcdef1234567890" "deepseek" "deepseek-chat"
    ∧ handle_action "revert:9000:abcdef1234567890_9"
        = TrayAction.revertModel 9000 "abcdef1234567890" :=
  ⟨dispatch_routing_amended.1 "quit_7" (by decide),
   dispatch_routing_amended.2.2.2.2.1 "switch:9000:abcdef1234567890:deepseek:deepseek-chat_3"
     "switch".data "9000".data "abcdef1234567890".data "deepseek".data "deepseek-chat".data []
     (by decide) rfl,
   dispatch_routing_amended.2.2.2.2.2 "revert:9000:abcdef1234567890_9"
     "revert".data "9000".data "abcdef1234567890".data []
     (by decide) rfl⟩

/-! ### C9: malformed identifiers -/

/-- C9 counterexample: a `switch` identifier whose controlPort field
does not parse as a port number is NOT ignored — the port is coerced to
`0` by `parse::<u16>().unwrap_or(0)` and switchModel is dispatched. -/
theorem malformed_port_dispatch_counterexample :
    handle_menu_event "switch:xx:s1:deepseek:deepseek-chat_1"
      = TrayAction.switchModel 0 "s1" "deepseek" "deepseek-chat"
    ∧ handle_menu_event "switch:xx:s1:deepseek:deepseek-chat_1" ≠ TrayAction.nop := by
  decide

/-- C9 (amended): an unknown tag or an insufficient field count is a
no-op (no ControlClient call); but a switch/revert identifier whose
controlPort field is not numeric is still dispatched, with the port
coerced to 0. -/
theorem malformed_identifier_handling_amended :
    (∀ (id : String) (t : List Char) (ps : List (List Char)),
        splitChar ':' (strip_counter_suffix id).data = t :: ps →
        t ≠ "switch".data → t ≠ "revert".data → handle_action id = TrayAction.nop)
    ∧ (∀ (id : String) (t : List Char) (ps : List (List Char)),
        splitChar ':' (strip_counter_suffix id).data = t :: ps →
        t = "switch".data → ps.length < 4 → handle_action id = TrayAction.nop)
    ∧ (∀ (id : String) (t : List Char) (ps : List (List Char)),
        splitChar ':' (strip_counter_suffix id).data = t :: ps →
        t = "revert".data → ps.length < 2 → handle_action id = TrayAction.nop)
    ∧ (∀ (id : String) (t p1 p2 p3 p4 : List Char) (rest : List (List Char)),
        splitChar ':' (strip_counter_suffix id).data
          = t :: p1 :: p2 :: p3 :: p4 :: rest →
        t = "switch".data → (u16_digits p1).all Char.isDigit = false →
        handle_action id = TrayAction.switchModel 0 ⟨p2⟩ ⟨p3⟩ ⟨p4⟩)
    ∧ (∀ (id : String) (t p1 p2 : List Char) (rest : List (List Char)),
        splitChar ':' (strip_counter_suffix id).data = t :: p1 :: p2 :: rest →
        t = "revert".data → (u16_digits p1).all Char.isDigit = false →
        handle_action id = TrayAction.revertModel 0 ⟨p2⟩) :=
  ⟨handle_action_unknown_tag, handle_action_switch_short, handle_action_revert_short,
   fun id t p1 p2 p3 p4 rest hsplit ht hp =>
     parse_u16_malformed hp ▸ handle_action_switch id t p1 p2 p3 p4 rest hsplit ht,
   fun id t p1 p2 rest hsplit ht hp =>
     parse_u16_malformed hp ▸ handle_action_revert id t p1 p2 rest hsplit ht⟩

/-- Witness for `malformed_identifier_handling_amended`: an unknown
tag, a short switch, and a non-numeric port. -/
theorem malformed_identifier_handling_amended_witness :
    handle_action "header_0" = TrayAction.nop
    ∧ handle_action "switch:1:s_0" = TrayAction.nop
    ∧ handle_action "revert:xx:s1_2" = TrayAction.revertModel 0 "s1" :=
  ⟨malformed_identifier_handling_amended.1 "header_0" "header".data []
     (by decide) (by decide) (by decide),
   malformed_identifier_handling_amended.2.1 "switch:1:s_0" "switch".data
     ["1".data, "s".data] (by decide) rfl (by decide),
   malformed_identifier_handling_amended.2.2.2.2 "revert:xx:s1_2" "revert".data
     "xx".data "s1".data [] (by decide) rfl (by decide)⟩

/-! ### Helper lemmas: fingerprint -/

theorem string_data_inj {a b : String} (h : a.data = b.data) : a = b := by
  cases a
  cases b
  exact congrArg String.mk h

/-- Right-fold form of the fingerprint concatenation. -/
def renders : List SessionInfo → String
  | [] => ""
  | s :: t => render_entry s ++ renders t

theorem foldl_renders (l : List SessionInfo) :
    ∀ acc : String, l.foldl (fun fp s => fp ++ render_entry s) acc = acc ++ renders l := by
  induction l with
  | nil =>
    intro acc
    apply string_data_inj
    simp [renders, String.data_append]
  | cons s t ih =>
    intro acc
    simp only [List.foldl_cons, renders]
    rw [ih]
    apply string_data_inj
    simp [String.data_append, List.append_assoc]

theorem compute_fingerprint_eq (l : List SessionInfo) :
    compute_fingerprint l = renders l := by
  unfold compute_fingerprint
  rw [foldl_renders l ""]
  apply string_data_inj
  simp [String.data_append]

theorem fp_middle_iff (L R : List SessionInfo) (e1 e2 : SessionInfo) :
    compute_fingerprint (L ++ e1 :: R) = compute_fingerprint (L ++ e2 :: R)
      ↔ render_entry e1 = render_entry e2 := by
  rw [compute_fingerprint_eq, compute_fingerprint_eq]
  have hr : ∀ e, renders (L ++ e :: R) = renders L ++ (render_entry e ++ renders R) := by
    intro e
    induction L with
    | nil =>
      apply string_data_inj
      simp [renders, String.data_append]
    | cons a t ih =>
      apply string_data_inj
      have hd := congrArg String.data ih
      simp only [String.data_append] at hd
      simp [renders, String.data_append, hd, List.append_assoc]
  rw [hr, hr]
  constructor
  · intro h
    have hd := congrArg String.data h
    simp only [String.data_append] at hd
    exact string_data_inj (List.append_cancel_right (List.append_cancel_left hd))
  · intro h
    rw [h]

theorem render_entry_data (s : SessionInfo) :
    (render_entry s).data
      = s.session_id.data ++ ':' :: ((bool_str s.healthy).data
          ++ ':' :: ((bool_str s.switched).data
          ++ ':' :: ((s.provider.getD "").data
          ++ ':' :: ((s.model.getD "").data ++ ['|'])))) := by
  have hc : (":" : String).data = [':'] := rfl
  have hb : ("|" : String).data = ['|'] := rfl
  simp [render_entry, String.data_append, hc, hb, List.append_assoc]

theorem bool_str_data_inj {a b : Bool} (h : (bool_str a).data = (bool_str b).data) :
    a = b := by
  cases a <;> cases b <;> revert h <;> decide

/-! ### C4: fingerprint determinism and sensitivity -/

/-- C4 counterexample: changing `provider` of an entry from `none` to
`some ""` changes the field but not the fingerprint — both render as
the empty string under `as_deref().unwrap_or("")`. -/
theorem fingerprint_empty_provider_counterexample :
    sampleSession.provider ≠ sampleSessionEmptyProvider.provider
    ∧ sampleSession.session_id = sampleSessionEmptyProvider.session_id
    ∧ sampleSession.healthy = sampleSessionEmptyProvider.healthy
    ∧ sampleSession.switched = sampleSessionEmptyProvider.switched
    ∧ sampleSession.model = sampleSessionEmptyProvider.model
    ∧ compute_fingerprint [sampleSession] = compute_fingerprint [sampleSessionEmptyProvider] := by
  decide

/-- C4 (amended): the fingerprint is pure and repeatable; changing the
`session_id`, `healthy` or `switched` of any single entry (all other
entries and fields fixed) changes the fingerprint; changing `provider`
or `model` changes the fingerprint PROVIDED the old and new values
render differently under `unwrap_or("")` — i.e. except when one is
`none` and the other `some ""`. -/
theorem fingerprint_sensitivity_amended :
    (∀ l1 l2 : List SessionInfo, l1 = l2 →
        compute_fingerprint l1 = compute_fingerprint l2)
    ∧ (∀ (L R : List SessionInfo) (e1 e2 : SessionInfo),
        e1.healthy = e2.healthy → e1.switched = e2.switched →
        e1.provider = e2.provider → e1.model = e2.model →
        e1.session_id ≠ e2.session_id →
        compute_fingerprint (L ++ e1 :: R) ≠ compute_fingerprint (L ++ e2 :: R))
    ∧ (∀ (L R : List SessionInfo) (e1 e2 : SessionInfo),
        e1.session_id = e2.session_id → e1.switched = e2.switched →
        e1.provider = e2.provider → e1.model = e2.model →
        e1.healthy ≠ e2.healthy →
        compute_fingerprint (L ++ e1 :: R) ≠ compute_fingerprint (L ++ e2 :: R))
    ∧ (∀ (L R : List SessionInfo) (e1 e2 : SessionInfo),
        e1.session_id = e2.session_id → e1.healthy = e2.healthy →
        e1.provider = e2.provider → e1.model = e2.model →
        e1.switched ≠ e2.switched →
        compute_fingerprint (L ++ e1 :: R) ≠ compute_fingerprint (L ++ e2 :: R))
    ∧ (∀ (L R : List SessionInfo) (e1 e2 : SessionInfo),
        e1.session_id = e2.session_id → e1.healthy = e2.healthy →
        e1.switched = e2.switched → e1.model = e2.model →
        e1.provider.getD "" ≠ e2.provider.getD "" →
        compute_fingerprint (L ++ e1 :: R) ≠ compute_fingerprint (L ++ e2 :: R))
    ∧ (∀ (L R : List SessionInfo) (e1 e2 : SessionInfo),
        e1.session_id = e2.session_id → e1.healthy = e2.healthy →
        e1.switched = e2.switched → e1.provider = e2.provider →
        e1.model.getD "" ≠ e2.model.getD "" →
        compute_fingerprint (L ++ e1 :: R) ≠ compute_fingerprint (L ++ e2 :: R)) := by
  refine ⟨fun l1 l2 h => by rw [h], ?_, ?_, ?_, ?_, ?_⟩
  · intro L R e1 e2 hh hsw hp hm hne hfp
    have hd := congrArg String.data ((fp_middle_iff L R e1 e2).mp hfp)
    rw [render_entry_data, render_entry_data, hh, hsw, hp, hm] at hd
    exact hne (string_data_inj (List.append_cancel_right hd))
  · intro L R e1 e2 hs hsw hp hm hne hfp
    have hd := congrArg String.data ((fp_middle_iff L R e1 e2).mp hfp)
    rw [render_entry_data, render_entry_data, hs, hsw, hp, hm] at hd
    have h1 := List.append_cancel_left hd
    injection h1 with _ h2
    exact hne (bool_str_data_inj (List.append_cancel_right h2))
  · intro L R e1 e2 hs hh hp hm hne hfp
    have hd := congrArg String.data ((fp_middle_iff L R e1 e2).mp hfp)
    rw [render_entry_data, render_entry_data, hs, hh, hp, hm] at hd
    have h1 := List.append_cancel_left hd
    injection h1 with _ h2
    have h3 := List.append_cancel_left h2
    injection h3 with _ h4
    exact hne (bool_str_data_inj (List.append_cancel_right h4))
  · intro L R e1 e2 hs hh hsw hm hne hfp
    have hd := congrArg String.data ((fp_middle_iff L R e1 e2).mp hfp)
    rw [render_entry_data, render_entry_data, hs, hh, hsw, hm] at hd
    have h1 := List.append_cancel_left hd
    injection h1 with _ h2
    have h3 := List.append_cancel_left h2
    injection h3 with _ h4
    have h5 := List.append_cancel_left h4
    injection h5 with _ h6
    exact hne (string_data_inj (List.append_cancel_right h6))
  · intro L R e1 e2 hs hh hsw hp hne hfp
    have hd := congrArg String.data ((fp_middle_iff L R e1 e2).mp hfp)
    rw [render_entry_data, render_entry_data, hs, hh, hsw, hp] at hd
    have h1 := List.append_cancel_left hd
    injection h1 with _ h2
    have h3 := List.append_cancel_left h2
    injection h3 with _ h4
    have h5 := List.append_cancel_left h4
    injection h5 with _ h6
    have h7 := List.append_cancel_left h6
    injection h7 with _ h8
    exact hne (string_data_inj (List.append_cancel_right h8))

/-- Witness for `fingerprint_sensitivity_amended`: a healthy-bit flip
changes the fingerprint of a singleton list. -/
theorem fingerprint_sensitivity_amended_witness :
    compute_fingerprint [sampleSession]
      ≠ compute_fingerprint [{ sampleSession with healthy := false }] :=
  fingerprint_sensitivity_amended.2.2.1 [] [] sampleSession
    { sampleSession with healthy := false } rfl rfl rfl rfl (by decide)

/-! ### Helper lemmas: decimal rendering and uid injectivity -/

theorem digitChar_lt10_ne_underscore {d : Nat} (h : d < 10) :
    Nat.digitChar d ≠ '_' := by
  interval_cases d <;> decide

theorem digitChar_lt10_inj {d e : Nat} (hd : d < 10) (he : e < 10)
    (h : Nat.digitChar d = Nat.digitChar e) : d = e := by
  interval_cases d <;> interval_cases e <;> revert h <;> decide

theorem map_digitChar_inj : ∀ {l1 l2 : List Nat},
    (∀ d ∈ l1, d < 10) → (∀ d ∈ l2, d < 10) →
    l1.map Nat.digitChar = l2.map Nat.digitChar → l1 = l2 := by
  intro l1
  induction l1 with
  | nil =>
    intro l2 _ _ h
    cases l2 with
    | nil => rfl
    | cons b u => simp at h
  | cons a t ih =>
    intro l2 h1 h2 h
    cases l2 with
    | nil => simp at h
    | cons b u =>
      simp only [List.map_cons, List.cons.injEq] at h
      obtain ⟨hab, htu⟩ := h
      have ha := h1 a (List.mem_cons_self _ _)
      have hb := h2 b (List.mem_cons_self _ _)
      rw [digitChar_lt10_inj ha hb hab,
        ih (fun d hd => h1 d (List.mem_cons_of_mem _ hd))
           (fun d hd => h2 d (List.mem_cons_of_mem _ hd)) htu]

theorem natDecimal_no_underscore (n : Nat) : ∀ c ∈ natDecimal n, c ≠ '_' := by
  intro c hc
  unfold natDecimal at hc
  by_cases hn : n = 0
  · rw [if_pos hn] at hc
    simp at hc
    rw [hc]
    decide
  · rw [if_neg hn] at hc
    rw [List.mem_reverse] at hc
    obtain ⟨d, hd, rfl⟩ := List.mem_map.mp hc
    exact digitChar_lt10_ne_underscore (Nat.digits_lt_base (by norm_num) hd)

theorem natDecimal_zero_ne {m : Nat} (hm : m ≠ 0) : natDecimal 0 ≠ natDecimal m := by
  intro h
  unfold natDecimal at h
  rw [if_pos rfl, if_neg hm] at h
  have h' := congrArg List.reverse h
  simp only [List.reverse_reverse] at h'
  cases hd : Nat.digits 10 m with
  | nil =>
    rw [hd] at h'
    simp at h'
  | cons d t =>
    rw [hd] at h'
    simp only [List.map_cons] at h'
    have h'' := h'.symm
    rw [show (['0'] : List Char).reverse = ['0'] from rfl] at h''
    obtain ⟨hd0, ht⟩ := List.cons.inj h''
    have ht0 : t = [] := List.map_eq_nil_iff.mp ht
    have hdlt : d < 10 :=
      Nat.digits_lt_base (by norm_num) (hd ▸ List.mem_cons_self d t)
    have hd00 : d = 0 := digitChar_lt10_inj hdlt (by norm_num) hd0
    have hof := Nat.ofDigits_digits 10 m
    rw [hd, ht0, hd00] at hof
    simp [Nat.ofDigits] at hof
    exact hm hof.symm

theorem natDecimal_inj {n m : Nat} (h : natDecimal n = natDecimal m) : n = m := by
  by_cases hn : n = 0 <;> by_cases hm : m = 0
  · rw [hn, hm]
  · exact absurd (hn ▸ h) (natDecimal_zero_ne hm)
  · exact absurd (hm ▸ h.symm) (natDecimal_zero_ne hn)
  · unfold natDecimal at h
    rw [if_neg hn, if_neg hm] at h
    have h' := List.reverse_inj.mp h
    exact Nat.digits.injective 10
      (map_digitChar_inj
        (fun d hd => Nat.digits_lt_base (by norm_num) hd)
        (fun d hd => Nat.digits_lt_base (by norm_num) hd) h')

theorem takeWhile_append_stop {p : Char → Bool} :
    ∀ (xs : List Char) (y : Char) (zs : List Char),
    (∀ c ∈ xs, p c = true) → p y = false →
    (xs ++ y :: zs).takeWhile p = xs := by
  intro xs y zs hall hy
  induction xs with
  | nil => simp [List.takeWhile, hy]
  | cons x t ih =>
    have hx := hall x (List.mem_cons_self _ _)
    simp [List.takeWhile, hx, ih (fun c hc => hall c (List.mem_cons_of_mem _ hc))]

theorem append_underscore_inj {a1 a2 s1 s2 : List Char}
    (h1 : ('_' : Char) ∉ s1) (h2 : ('_' : Char) ∉ s2)
    (h : a1 ++ '_' :: s1 = a2 ++ '_' :: s2) : s1 = s2 := by
  have hr := congrArg List.reverse h
  simp only [List.reverse_append, List.reverse_cons, List.append_assoc,
    List.singleton_append] at hr
  have t1 := takeWhile_append_stop (p := fun c => c ≠ '_') s1.reverse '_' a1.reverse
    (fun c hc => decide_eq_true (fun he => h1 (List.mem_reverse.mp (he ▸ hc))))
    (by decide)
  have t2 := takeWhile_append_stop (p := fun c => c ≠ '_') s2.reverse '_' a2.reverse
    (fun c hc => decide_eq_true (fun he => h2 (List.mem_reverse.mp (he ▸ hc))))
    (by decide)
  have hs : s1.reverse = s2.reverse := by rw [← t1, ← t2, hr]
  exact List.reverse_inj.mp hs

theorem uid_string_inj {b1 b2 : String} {n m : Nat}
    (h : b1 ++ "_" ++ (⟨natDecimal n⟩ : String)
      = b2 ++ "_" ++ (⟨natDecimal m⟩ : String)) : n = m := by
  have hd := congrArg String.data h
  simp only [String.data_append] at hd
  simp only [List.append_assoc, List.singleton_append] at hd
  exact natDecimal_inj (append_underscore_inj
    (fun hmem => natDecimal_no_underscore n '_' hmem rfl)
    (fun hmem => natDecimal_no_underscore m '_' hmem rfl) hd)

theorem issue_length : ∀ (bs : List String) (c : Nat),
    (issue bs c).length = bs.length := by
  intro bs
  induction bs with
  | nil => intro c; rfl
  | cons b t ih => intro c; simp [issue, ih]

theorem mem_issue_bound : ∀ (bs : List String) (c : Nat) (y : String),
    y ∈ issue bs c → c + bs.length ≤ 2 ^ 64 →
    ∃ b k, c ≤ k ∧ k < c + bs.length
      ∧ y = b ++ "_" ++ (⟨natDecimal k⟩ : String) := by
  intro bs
  induction bs with
  | nil =>
    intro c y hy _
    simp [issue] at hy
  | cons b t ih =>
    intro c y hy hbound
    simp only [issue, List.mem_cons] at hy
    rcases hy with rfl | hy
    · exact ⟨b, c, le_refl c, by simp, rfl⟩
    · by_cases ht : t = []
      · subst ht
        simp [issue] at hy
      · have htlen : 1 ≤ t.length := by
          cases t
          · exact absurd rfl ht
          · simp
        simp only [List.length_cons] at hbound
        have hc1 : c + 1 < 2 ^ 64 := by omega
        have hmod : (uid b c).2 = c + 1 := Nat.mod_eq_of_lt hc1
        rw [hmod] at hy
        obtain ⟨b', k, hk1, hk2, hy'⟩ := ih (c + 1) y hy (by omega)
        exact ⟨b', k, by omega, by simp only [List.length_cons]; omega, hy'⟩

theorem issue_get? : ∀ (bs : List String) (c k : Nat), c < 2 ^ 64 → k < bs.length →
    (issue bs c).get? k
      = (bs.get? k).map
          (fun b => b ++ "_" ++ (⟨natDecimal ((c + k) % 2 ^ 64)⟩ : String)) := by
  intro bs
  induction bs with
  | nil =>
    intro c k _ hk
    simp at hk
  | cons b t ih =>
    intro c k hc hk
    cases k with
    | zero =>
      have hc0 : (c + 0) % 2 ^ 64 = c := by
        rw [Nat.add_zero]
        exact Nat.mod_eq_of_lt hc
      simp only [issue, List.get?_cons_zero, Option.map_some', hc0]
      rfl
    | succ j =>
      have h2 : (uid b c).2 = (c + 1) % 2 ^ 64 := rfl
      simp only [issue, List.get?_cons_succ, h2]
      rw [ih ((c + 1) % 2 ^ 64) j (Nat.mod_lt _ (by norm_num)) (by simpa using hk)]
      have hm : ((c + 1) % 2 ^ 64 + j) % 2 ^ 64 = (c + (j + 1)) % 2 ^ 64 := by
        rw [Nat.mod_add_mod]
        congr 1
        omega
      rw [hm]

/-! ### C1: menu identifier uniqueness -/

/-- C1 counterexample: the counter is a `u64` and `fetch_add` wraps, so
an allocation sequence of length `2 ^ 64 + 1` from a fresh process
(counter 0) reuses suffix 0: allocations 0 and `2 ^ 64` with the same
base produce the same identifier, so the issued identifiers are NOT
pairwise distinct for EVERY allocation sequence. -/
theorem uid_wraparound_counterexample :
    ¬ (issue (List.replicate (2 ^ 64 + 1) "x") 0).Pairwise (fun a b => a ≠ b) := by
  intro hpw
  have hlen : (issue (List.replicate (2 ^ 64 + 1) "x") 0).length = 2 ^ 64 + 1 := by
    rw [issue_length, List.length_replicate]
  have hi0 : (0 : Nat) < (issue (List.replicate (2 ^ 64 + 1) "x") 0).length := by
    rw [hlen]; norm_num
  have hi1 : (2 ^ 64 : Nat) < (issue (List.replicate (2 ^ 64 + 1) "x") 0).length := by
    rw [hlen]; norm_num
  have h0 := issue_get? (List.replicate (2 ^ 64 + 1) "x") 0 0 (by norm_num)
    (by rw [List.length_replicate]; norm_num)
  have h1 := issue_get? (List.replicate (2 ^ 64 + 1) "x") 0 (2 ^ 64) (by norm_num)
    (by rw [List.length_replicate]; norm_num)
  rw [List.get?_eq_get hi0] at h0
  rw [List.get?_eq_get hi1] at h1
  have hr0 : (List.replicate (2 ^ 64 + 1) "x").get? 0 = some "x" := by
    rw [List.get?_eq_getElem?, List.getElem?_replicate, if_pos (by norm_num)]
  have hr1 : (List.replicate (2 ^ 64 + 1) "x").get? (2 ^ 64) = some "x" := by
    rw [List.get?_eq_getElem?, List.getElem?_replicate, if_pos (by norm_num)]
  rw [hr0] at h0
  rw [hr1] at h1
  rw [Option.map_some'] at h0 h1
  have e0 : ((0 : Nat) + 0) % 2 ^ 64 = 0 := by norm_num
  have e1 : ((0 : Nat) + 2 ^ 64) % 2 ^ 64 = 0 := by norm_num
  rw [e0] at h0
  rw [e1] at h1
  have hR := List.pairwise_iff_get.mp hpw ⟨0, hi0⟩ ⟨2 ^ 64, hi1⟩
    (Fin.mk_lt_mk.mpr (by norm_num))
  exact hR ((Option.some.inj h0).trans (Option.some.inj h1).symm)

/-- C1 (amended): identifiers from any allocation sequence in one run
are pairwise distinct as long as the total number of allocations does
not exceed `2 ^ 64` (the `u64` counter space), because each identifier
ends in `'_'` followed by the decimal rendering of a distinct counter
value. -/
theorem uid_pairwise_distinct : ∀ (bases : List String) (c : Nat),
    c + bases.length ≤ 2 ^ 64 →
    (issue bases c).Pairwise (fun a b => a ≠ b) := by
  intro bases
  induction bases with
  | nil =>
    intro c _
    simp [issue]
  | cons b t ih =>
    intro c hbound
    simp only [issue]
    by_cases ht : t = []
    · subst ht
      simp [issue]
    · have htlen : 1 ≤ t.length := by
        cases t
        · exact absurd rfl ht
        · simp
      simp only [List.length_cons] at hbound
      have hc1 : c + 1 < 2 ^ 64 := by omega
      have hmod : (uid b c).2 = c + 1 := Nat.mod_eq_of_lt hc1
      rw [hmod]
      refine List.pairwise_cons.mpr ⟨?_, ih (c + 1) (by omega)⟩
      intro y hy heq
      obtain ⟨b', k, hk1, hk2, rfl⟩ := mem_issue_bound t (c + 1) y hy (by omega)
      have heq' : b ++ "_" ++ (⟨natDecimal c⟩ : String)
          = b' ++ "_" ++ (⟨natDecimal k⟩ : String) := heq
      have := uid_string_inj heq'
      omega

/-- Witness for `uid_pairwise_distinct`: the three allocations of the
initial empty menu are pairwise distinct. -/
theorem uid_pairwise_distinct_witness :
    (issue ["header", "no_sessions", "quit"] 0).Pairwise (fun a b => a ≠ b) :=
  uid_pairwise_distinct ["header", "no_sessions", "quit"] 0 (by norm_num)

end OhMyClaude
